import Mathlib

/-!
Shallow embedding of the dispatch-and-tracking core of the HomeServe Pro
service, transcribed from `src/app.py` and `src/location_tracker.py`.

Coordinates and distances are modelled as rationals (`ℚ`).  The function
`calculate_distance` of the repository delegates entirely to the geodesic computation of the external
`geopy` library; every repository function that uses a distance only
compares the returned values, so the embedding takes the distance function as
an explicit parameter (`dist`) and the theorems hold for every distance
function.  Concrete instantiations in witnesses and counterexamples use the
squared Euclidean distance `sqDist`, which, like the geodesic distance,
returns equal values on equal argument pairs.

Statuses are Python strings in the source and are kept as `String` here.
Timestamps (`datetime` values) are modelled as integers; only their ordering
could matter, and in fact the source never compares them.
-/

/-- Squared Euclidean distance on rational coordinates: a concrete stand-in
for the external geodesic computation, used to instantiate the `dist`
parameter on concrete inputs.  Like the geodesic distance it is symmetric,
zero on identical points, and yields equal results for technicians standing
at identical coordinates. -/
def sqDist (lat1 lon1 lat2 lon2 : ℚ) : ℚ :=
  (lat1 - lat2) * (lat1 - lat2) + (lon1 - lon2) * (lon1 - lon2)

/-- The function `sqDist` lifted to optional customer coordinates, as `create_booking` passes
its raw `Optional[float]` parameters straight into the distance computation
(inside `geopy` a `None` coordinate is silently coerced to `0.0`; the value
returned in that case is irrelevant to every theorem below). -/
def sqDistOpt (lat1 lon1 : ℚ) (lat2 lon2 : Option ℚ) : ℚ :=
  match lat2, lon2 with
  | some a, some b => sqDist lat1 lon1 a b
  | _, _ => 0

/-- Python truncation toward zero, as performed by `int()` in `get_eta`
(`src/location_tracker.py`, line 12). -/
def pyInt (q : ℚ) : ℤ :=
  if 0 ≤ q then ⌊q⌋ else ⌈q⌉

/-- Transcription of `get_eta` from `src/location_tracker.py` (lines 8-13): ETA in minutes from
a distance in kilometres, at an assumed average speed of 30 km/h, truncated to
an integer and floored at 5 minutes. -/
def get_eta (distance_km : ℚ) : ℤ :=
  let avg_speed_kmh : ℚ := 30
  let time_hours := distance_km / avg_speed_kmh
  let time_minutes := pyInt (time_hours * 60)
  max time_minutes 5

/-- Rounding of Python, `round` to the nearest integer, ties to even, used by
`round(distance, 2)` in the tracking endpoints of `src/app.py`. -/
def pyRoundHalfEven (q : ℚ) : ℤ :=
  let f := ⌊q⌋
  let r := q - f
  if r < 1/2 then f
  else if 1/2 < r then f + 1
  else if 2 ∣ f then f else f + 1

/-- Rounding to two decimal places, half to even, as Python computes
`round(q, 2)`. -/
def round2 (q : ℚ) : ℚ :=
  (pyRoundHalfEven (q * 100) : ℚ) / 100

/-- Semantics of the Python expression `x or default` applied to an optional float, as in
`latitude or 28.6139` (`src/app.py`, line 165): `None` and `0.0` are both
falsy, so either is replaced by the default. -/
def pyOr (x : Option ℚ) (default : ℚ) : ℚ :=
  match x with
  | none => default
  | some v => if v = 0 then default else v

/-- A row of the `technicians` table (`src/models.py`, lines 42-59), restricted
to the fields the dispatch path reads. -/
structure Technician where
  id : ℕ
  service_category : String
  rating : ℚ
  current_latitude : ℚ
  current_longitude : ℚ
  is_available : Bool
deriving DecidableEq, Repr

/-- A row of the `technician_tracking` table (`src/models.py`, lines 91-104).
The customer-coordinate type is a parameter because `create_booking`
(`src/app.py`, lines 196-197) stores its raw `Optional[float]` request
parameters there, while the tracking endpoints read the columns as plain
floats. -/
structure Tracking (α : Type) where
  technician_id : ℕ
  current_latitude : ℚ
  current_longitude : ℚ
  customer_latitude : α
  customer_longitude : α
  status : String
  last_updated : ℤ
deriving DecidableEq, Repr

/-- The selection loop of `find_nearest_technician` (`src/app.py`, lines
564-573): starting from `nearest = None`, `min_distance = inf`, take each
technician whose distance is strictly below the minimum so far.  `none` for
the accumulated minimum plays the role of the float infinity, which every finite
distance is strictly below. -/
def nearestStep (f : Technician → ℚ) (acc : Option Technician × Option ℚ)
    (tech : Technician) : Option Technician × Option ℚ :=
  let distance := f tech
  match acc.2 with
  | none => (some tech, some distance)
  | some m => if distance < m then (some tech, some distance) else acc

/-- The whole loop of `find_nearest_technician`: fold `nearestStep` over the
filtered list from `nearest = None`, `min_distance = inf`. -/
def nearestLoop (f : Technician → ℚ) (techs : List Technician) :
    Option Technician × Option ℚ :=
  techs.foldl (nearestStep f) (none, none)

/-- Recursive form of the loop once a current best `b` is held: keep the
candidate only when its value is strictly smaller than the best so far (the
`<` on line 569 of `src/app.py`), so an equal-distance later candidate never
displaces the current best. -/
def nearestGo (f : Technician → ℚ) (b : Technician) :
    List Technician → Technician
  | [] => b
  | t :: ts => if f t < f b then nearestGo f t ts else nearestGo f b ts

/-- Transcription of `find_nearest_technician` from `src/app.py` (lines 554-573): filter the
technician directory to the requested category and `is_available = True`, then
scan for the minimum distance to the requester position.  The requester
coordinate type `α` is a parameter: `create_booking` passes `Optional[float]`
values straight through. -/
def find_nearest_technician {α : Type} (dist : ℚ → ℚ → α → α → ℚ)
    (techs : List Technician) (service_category : String) (lat lon : α) :
    Option Technician :=
  let technicians := techs.filter
    (fun t => t.service_category = service_category ∧ t.is_available)
  (nearestLoop (fun t => dist t.current_latitude t.current_longitude lat lon)
    technicians).1

/-- The element `r` is the first minimum of `l` under `f`: it occurs at some
index `i`, no element of `l` has a strictly smaller value, and every element
strictly before index `i` has a strictly larger value.  This pins down the
tie-breaking of the selection loop: among equal minimal distances the
earliest-listed candidate is kept. -/
def isFirstMin (f : Technician → ℚ) (l : List Technician) (r : Technician) :
    Prop :=
  ∃ i : ℕ, ∃ hi : i < l.length, l.get ⟨i, hi⟩ = r ∧
    (∀ j (hj : j < l.length), f r ≤ f (l.get ⟨j, hj⟩)) ∧
    ∀ j (hj : j < l.length), j < i → f r < f (l.get ⟨j, hj⟩)

/-- Outcome of the `update_technician_location` endpoint: the new tracking row,
the new booking status, and the `success` flag of the JSON response. -/
structure LocationUpdateResult (α : Type) where
  tracking : Option (Tracking α)
  booking_status : String
  success : Bool
deriving DecidableEq, Repr

/-- The `/api/technician/update-location` endpoint (`src/app.py`, lines
367-402), for a booking that exists.  If the tracking row exists the position
and `last_updated` are overwritten unconditionally (no timestamp comparison,
no coordinate validation, no terminal-status check); then the status rule of
lines 392-398 runs: distance below 0.1 km sets `arrived`, otherwise the status
becomes `en_route` unless it already is `arrived`.  The response is
`{"success": True}` in every case.  `now` is the value of `datetime.now()`
when the report is processed. -/
def update_technician_location {α : Type} (dist : ℚ → ℚ → α → α → ℚ)
    (now : ℤ) (latitude longitude : ℚ)
    (booking_status : String) (tracking : Option (Tracking α)) :
    LocationUpdateResult α :=
  match tracking with
  | none => ⟨none, booking_status, true⟩
  | some t =>
    let t1 : Tracking α :=
      { t with current_latitude := latitude, current_longitude := longitude,
               last_updated := now }
    let distance := dist latitude longitude t.customer_latitude t.customer_longitude
    if distance < 1/10 then
      ⟨some { t1 with status := "arrived" }, "arrived", true⟩
    else if t1.status ≠ "arrived" then
      ⟨some { t1 with status := "en_route" }, "en_route", true⟩
    else
      ⟨some t1, booking_status, true⟩

/-- Transcription of `update_technician_position` from `src/location_tracker.py` (lines 15-24):
overwrite the position of the tracking row and stamp `last_updated` with
`datetime.now()`, unconditionally whenever the row exists. -/
def update_technician_position {α : Type} (now : ℤ) (lat lon : ℚ)
    (tracking : Option (Tracking α)) : Option (Tracking α) :=
  match tracking with
  | none => none
  | some t =>
    some { t with current_latitude := lat, current_longitude := lon,
                  last_updated := now }

/-- Latitude acceptance of the external `geopy` library: constructing a
`Point` raises `ValueError` when a latitude lies outside [-90, 90], while a
longitude of any magnitude is accepted (it is normalized into range without
error).  Modelled from the spec (§4.1 names the [-90, 90] latitude range) and
the `geopy` contract, since the library is outside this repository;
`calculate_distance` (`src/location_tracker.py`, lines 4-6) adds no check of
its own. -/
def geopy_latitude_ok (lat : ℚ) : Bool :=
  -90 ≤ lat ∧ lat ≤ 90

/-- Transcription of `calculate_distance` (`src/location_tracker.py`, lines
4-6) with the failure behaviour of the underlying `geopy` geodesic call made
explicit: the result is an error (the propagated `ValueError`) exactly when
either point has a latitude outside [-90, 90]; longitudes are never
rejected.  The successful value is still abstracted by the `dist`
parameter. -/
def calculate_distance_geopy (dist : ℚ → ℚ → ℚ → ℚ → ℚ)
    (lat1 lon1 lat2 lon2 : ℚ) : Except String ℚ :=
  if geopy_latitude_ok lat1 && geopy_latitude_ok lat2 then
    .ok (dist lat1 lon1 lat2 lon2)
  else
    .error "ValueError"

/-- The `/api/technician/update-location` endpoint with the `geopy` latitude
failure made explicit.  In `src/app.py` the endpoint calls
`calculate_distance` (line 390) after mutating the in-memory row but before
`db.commit()` (line 400), so when `geopy` raises, the exception propagates
out of the endpoint: nothing is committed — the stored row keeps its previous
contents — and no success response is produced.  When the distance
computation succeeds the endpoint behaves exactly as
`update_technician_location`. -/
def update_technician_location_geopy (dist : ℚ → ℚ → ℚ → ℚ → ℚ)
    (now : ℤ) (latitude longitude : ℚ)
    (booking_status : String) (tracking : Option (Tracking ℚ)) :
    Except String (LocationUpdateResult ℚ) :=
  match tracking with
  | none => .ok ⟨none, booking_status, true⟩
  | some t =>
    match calculate_distance_geopy dist latitude longitude
        t.customer_latitude t.customer_longitude with
    | .error e => .error e
    | .ok _ =>
      .ok (update_technician_location dist now latitude longitude
        booking_status (some t))

/-- Outcome of the dispatch slice of `create_booking`: the assigned technician
(if any), the stored booking coordinates and status, the created tracking
row, and the technician directory after the call. -/
structure BookingOutcome where
  technician : Option Technician
  booking_latitude : ℚ
  booking_longitude : ℚ
  booking_status : String
  dispatch_lat_arg : Option ℚ
  dispatch_lon_arg : Option ℚ
  tracking : Option (Tracking (Option ℚ))
  technicians : List Technician
deriving DecidableEq, Repr

/-- The dispatch-and-tracking slice of the `create_booking` endpoint
(`src/app.py`, lines 158-201).  The booking row stores
`latitude or 28.6139` / `longitude or 77.2090` (line 165-166); the call to
`find_nearest_technician` (line 182) and the customer coordinates of the created
tracking row (lines 196-197) use the raw `Optional[float]` request parameters.
On success the booking status becomes `technician_assigned` and a tracking row
with status `assigned` is created; the technician directory itself is never
modified.  `dispatch_lat_arg`/`dispatch_lon_arg` record the arguments passed
to `find_nearest_technician`. -/
def create_booking (dist : ℚ → ℚ → Option ℚ → Option ℚ → ℚ)
    (techs : List Technician) (service_category : String)
    (latitude longitude : Option ℚ) : BookingOutcome :=
  let booking_latitude := pyOr latitude (286139/10000)
  let booking_longitude := pyOr longitude (772090/10000)
  let technician := find_nearest_technician dist techs service_category latitude longitude
  match technician with
  | some tech =>
    { technician := some tech
      booking_latitude := booking_latitude
      booking_longitude := booking_longitude
      booking_status := "technician_assigned"
      dispatch_lat_arg := latitude
      dispatch_lon_arg := longitude
      tracking := some
        { technician_id := tech.id
          current_latitude := tech.current_latitude
          current_longitude := tech.current_longitude
          customer_latitude := latitude
          customer_longitude := longitude
          status := "assigned"
          last_updated := 0 }
      technicians := techs }
  | none =>
    { technician := none
      booking_latitude := booking_latitude
      booking_longitude := booking_longitude
      booking_status := "confirmed"
      dispatch_lat_arg := latitude
      dispatch_lon_arg := longitude
      tracking := none
      technicians := techs }

/-- The wire shape sent by the tracking WebSocket (`src/app.py`, lines
303-310). -/
structure TrackingSnapshot where
  latitude : ℚ
  longitude : ℚ
  distance : ℚ
  eta : ℤ
  status : String
  lastUpdated : ℤ
deriving DecidableEq, Repr

/-- One snapshot as built in the body of the `websocket_tracking` loop
(`src/app.py`, lines 292-310): current position, distance to the customer
rounded to two decimals, ETA, status, and `last_updated`. -/
def make_snapshot {α : Type} (dist : ℚ → ℚ → α → α → ℚ)
    (t : Tracking α) : TrackingSnapshot :=
  let distance := dist t.current_latitude t.current_longitude
    t.customer_latitude t.customer_longitude
  { latitude := t.current_latitude
    longitude := t.current_longitude
    distance := round2 distance
    eta := get_eta distance
    status := t.status
    lastUpdated := t.last_updated }

/-- The message emitted by the `websocket_tracking` loop (`src/app.py`, lines
286-312) on its `n`-th five-second iteration, for a fixed tracking row: the
loop is `while True`, reads the row, sends a snapshot whenever the row exists,
sleeps, and repeats — it never inspects the status and never terminates on its
own, so the emission is the same at every tick. -/
def websocket_emission {α : Type} (dist : ℚ → ℚ → α → α → ℚ)
    (tracking : Option (Tracking α)) (n : ℕ) : Option TrackingSnapshot :=
  match tracking, n with
  | none, _ => none
  | some t, _ => some (make_snapshot dist t)

/-- Transcription of `ConnectionManager.connect` (`src/app.py`, lines 41-43): Python dict
assignment `self.active_connections[booking_id] = websocket` — replace the
binding if the key is present, otherwise add it. -/
def manager_connect (conns : List (String × ℕ)) (booking_id : String)
    (websocket : ℕ) : List (String × ℕ) :=
  if conns.any (fun p => p.1 = booking_id) then
    conns.map (fun p => if p.1 = booking_id then (booking_id, websocket) else p)
  else
    conns ++ [(booking_id, websocket)]

/-- Transcription of `ConnectionManager.disconnect` (`src/app.py`, lines 45-47): delete the
binding for `booking_id` if present. -/
def manager_disconnect (conns : List (String × ℕ)) (booking_id : String) :
    List (String × ℕ) :=
  conns.filter (fun p => p.1 ≠ booking_id)

/-- The websocket that `ConnectionManager.send_update` (`src/app.py`, lines
49-54) delivers to for a given `booking_id`: the single stored connection, if
any. -/
def send_update_target (conns : List (String × ℕ)) (booking_id : String) :
    Option ℕ :=
  (conns.find? (fun p => p.1 = booking_id)).map (fun p => p.2)

/-- An operation on the `ConnectionManager`. -/
inductive ManagerOp where
  | connect (booking_id : String) (websocket : ℕ)
  | disconnect (booking_id : String)
deriving DecidableEq, Repr

/-- Apply one operation to the registry. -/
def manager_apply (conns : List (String × ℕ)) : ManagerOp → List (String × ℕ)
  | .connect booking_id websocket => manager_connect conns booking_id websocket
  | .disconnect booking_id => manager_disconnect conns booking_id

/-- Run a sequence of operations on the manager, starting from the empty
registry `self.active_connections = {}` (`src/app.py`, line 39). -/
def run_manager (ops : List ManagerOp) : List (String × ℕ) :=
  ops.foldl manager_apply []

/-! ## Helper lemmas -/

/-- Truncation toward zero is monotone. -/
theorem pyInt_mono {q1 q2 : ℚ} (h : q1 ≤ q2) : pyInt q1 ≤ pyInt q2 := by
  unfold pyInt
  rcases le_or_lt 0 q1 with h1 | h1 <;> rcases le_or_lt 0 q2 with h2 | h2
  · rw [if_pos h1, if_pos h2]
    exact Int.floor_le_floor h
  · exfalso; linarith
  · rw [if_neg (not_le.mpr h1), if_pos h2]
    calc ⌈q1⌉ ≤ ⌈(0:ℚ)⌉ := Int.ceil_le_ceil h1.le
      _ = 0 := by simp
      _ ≤ ⌊q2⌋ := Int.floor_nonneg.mpr h2
  · rw [if_neg (not_le.mpr h1), if_neg (not_le.mpr h2)]
    exact Int.ceil_le_ceil h

/-- Unfolding equation for `update_technician_location` on an existing
tracking row: position and timestamp are overwritten, then the status rule
picks `arrived`, `en_route`, or leaves the status (and the booking status)
alone. -/
theorem update_technician_location_some {α : Type} (dist : ℚ → ℚ → α → α → ℚ)
    (now : ℤ) (lat lon : ℚ) (bs : String) (t : Tracking α) :
    update_technician_location dist now lat lon bs (some t)
      = if dist lat lon t.customer_latitude t.customer_longitude < 1/10 then
          ⟨some { t with current_latitude := lat, current_longitude := lon,
                         last_updated := now, status := "arrived" },
           "arrived", true⟩
        else if t.status ≠ "arrived" then
          ⟨some { t with current_latitude := lat, current_longitude := lon,
                         last_updated := now, status := "en_route" },
           "en_route", true⟩
        else
          ⟨some { t with current_latitude := lat, current_longitude := lon,
                         last_updated := now }, bs, true⟩ := rfl

/-! ## Claim theorems about the ETA estimator and the location-report
endpoint -/

/-- C6: for all distances `d1 ≤ d2`, `get_eta d1 ≤ get_eta d2`, and `get_eta`
never returns less than the 5-minute floor. -/
theorem get_eta_monotone_and_floored (d1 d2 : ℚ) :
    (d1 ≤ d2 → get_eta d1 ≤ get_eta d2) ∧ 5 ≤ get_eta d1 := by
  constructor
  · intro h
    unfold get_eta
    simp only
    refine max_le_max ?_ le_rfl
    have e1 : d1 / 30 * 60 = d1 * 2 := by ring
    have e2 : d2 / 30 * 60 = d2 * 2 := by ring
    rw [e1, e2]
    exact pyInt_mono (by linarith)
  · unfold get_eta
    simp only
    exact le_max_right _ _

/-- Witness for C6 at the concrete distances 0 km and 3 km. -/
theorem get_eta_monotone_and_floored_witness :
    (0:ℚ) ≤ 3 ∧ get_eta 0 ≤ get_eta 3 ∧ 5 ≤ get_eta 0 :=
  ⟨by norm_num, (get_eta_monotone_and_floored 0 3).1 (by norm_num),
   (get_eta_monotone_and_floored 0 3).2⟩

/-- C3: a location report on an existing tracking row sets the status to
`arrived` when the recomputed distance is below 0.1 km, otherwise to
`en_route` unless the status already is `arrived`; in particular a session
whose status is `arrived` stays `arrived` after any further report. -/
theorem location_report_status_rule {α : Type} (dist : ℚ → ℚ → α → α → ℚ)
    (now : ℤ) (lat lon : ℚ) (bs : String) (t : Tracking α) :
    (dist lat lon t.customer_latitude t.customer_longitude < 1/10 →
      ∃ t', (update_technician_location dist now lat lon bs (some t)).tracking
          = some t' ∧ t'.status = "arrived") ∧
    (¬ dist lat lon t.customer_latitude t.customer_longitude < 1/10 →
      t.status ≠ "arrived" →
      ∃ t', (update_technician_location dist now lat lon bs (some t)).tracking
          = some t' ∧ t'.status = "en_route") ∧
    (t.status = "arrived" →
      ∃ t', (update_technician_location dist now lat lon bs (some t)).tracking
          = some t' ∧ t'.status = "arrived") := by
  unfold update_technician_location
  simp only
  split_ifs with h1 h2
  · exact ⟨fun _ => ⟨_, rfl, rfl⟩, fun hc _ => absurd h1 hc,
      fun _ => ⟨_, rfl, rfl⟩⟩
  · refine ⟨fun hc => absurd hc h1, fun _ _ => ⟨_, rfl, rfl⟩, fun ha => ?_⟩
    exact absurd ha h2
  · refine ⟨fun hc => absurd hc h1, fun _ hne => absurd ?_ hne, fun _ => ⟨_, rfl, ?_⟩⟩
    · exact not_not.mp h2
    · exact not_not.mp h2

/-- Witness for C3: a session already `arrived` keeps status `arrived` after a
report from far away. -/
theorem location_report_status_rule_witness :
    ∃ t', (update_technician_location sqDist 5 3 3 "arrived"
        (some (⟨1, 0, 0, 51, 51, "arrived", 0⟩ : Tracking ℚ))).tracking
      = some t' ∧ t'.status = "arrived" :=
  (location_report_status_rule sqDist 5 3 3 "arrived"
    ⟨1, 0, 0, 51, 51, "arrived", 0⟩).2.2 rfl

/-- C4 counterexample: a report whose processing time 5 is strictly earlier
than the stored last-update timestamp 10 is not discarded — the position, the
status field, and the timestamp of the session are all overwritten. -/
theorem stale_report_not_discarded_cex :
    (5 : ℤ) < 10 ∧
    (update_technician_location sqDist 5 1 1 "en_route"
        (some (⟨1, 0, 0, 50, 50, "en_route", 10⟩ : Tracking ℚ))).tracking
      = some ⟨1, 1, 1, 50, 50, "en_route", 5⟩ := by
  refine ⟨by norm_num, ?_⟩
  rw [update_technician_location_some]
  norm_num [sqDist]

/-- C4 amended: the endpoint performs no timestamp comparison at all — every
location report on an existing tracking row is applied unconditionally, the
position becoming the reported coordinates and the last-update timestamp the
processing time, whatever their relation to the stored timestamp; the helper
`update_technician_position` behaves the same way. -/
theorem location_report_always_applied {α : Type} (dist : ℚ → ℚ → α → α → ℚ)
    (now : ℤ) (lat lon : ℚ) (bs : String) (t : Tracking α) :
    (∃ t', (update_technician_location dist now lat lon bs (some t)).tracking
        = some t' ∧ t'.current_latitude = lat ∧ t'.current_longitude = lon ∧
        t'.last_updated = now) ∧
    update_technician_position now lat lon (some t)
      = some { t with current_latitude := lat, current_longitude := lon,
                      last_updated := now } := by
  constructor
  · unfold update_technician_location
    simp only
    split_ifs <;> exact ⟨_, rfl, rfl, rfl, rfl⟩
  · rfl

/-- C5 counterexample: a location report on a session whose status is the
terminal `completed` is processed normally — the status is forced back to
`en_route`, the position and timestamp are overwritten, and the response is
success rather than a SessionTerminal rejection. -/
theorem terminal_session_report_cex :
    update_technician_location sqDist 11 0 0 "completed"
        (some (⟨1, 3, 3, 50, 50, "completed", 10⟩ : Tracking ℚ))
      = ⟨some ⟨1, 0, 0, 50, 50, "en_route", 11⟩, "en_route", true⟩ := by
  rw [update_technician_location_some]
  norm_num [sqDist]
  decide

/-- C5 amended: a report on a session with terminal status (`completed` or
`cancelled`) is applied like any other report: the position and timestamp are
overwritten and the status follows the distance rule — `arrived` below 0.1 km,
otherwise `en_route` — and the endpoint reports success; no SessionTerminal
rejection exists in the code. -/
theorem terminal_session_reports_applied {α : Type} (dist : ℚ → ℚ → α → α → ℚ)
    (now : ℤ) (lat lon : ℚ) (bs : String) (t : Tracking α)
    (hterm : t.status = "completed" ∨ t.status = "cancelled") :
    update_technician_location dist now lat lon bs (some t)
      = if dist lat lon t.customer_latitude t.customer_longitude < 1/10 then
          ⟨some { t with current_latitude := lat, current_longitude := lon,
                         last_updated := now, status := "arrived" },
           "arrived", true⟩
        else
          ⟨some { t with current_latitude := lat, current_longitude := lon,
                         last_updated := now, status := "en_route" },
           "en_route", true⟩ := by
  have hne : t.status ≠ "arrived" := by
    rcases hterm with h | h <;> simp [h]
  rw [update_technician_location_some]
  by_cases hd : dist lat lon t.customer_latitude t.customer_longitude < 1/10
  · rw [if_pos hd, if_pos hd]
  · rw [if_neg hd, if_neg hd, if_pos hne]

/-- Witness for C5 amended, at a concrete completed session. -/
theorem terminal_session_reports_applied_witness :
    (("completed" : String) = "completed" ∨ ("completed" : String) = "cancelled") ∧
    update_technician_location sqDist 11 0 0 "zz"
        (some (⟨2, 3, 3, 7, 7, "completed", 10⟩ : Tracking ℚ))
      = if sqDist 0 0 7 7 < 1/10 then
          ⟨some ⟨2, 0, 0, 7, 7, "arrived", 11⟩, "arrived", true⟩
        else
          ⟨some ⟨2, 0, 0, 7, 7, "en_route", 11⟩, "en_route", true⟩ :=
  ⟨Or.inl rfl,
   terminal_session_reports_applied sqDist 11 0 0 "zz"
     ⟨2, 3, 3, 7, 7, "completed", 10⟩ (Or.inl rfl)⟩

/-- C7 counterexample: a location report with longitude 200, outside the range
[-180, 180], is not rejected — the out-of-range position is stored, the
status advances, and the response is success, also under the model with the
geopy latitude failure made explicit; no InvalidCoordinate outcome exists. -/
theorem out_of_range_report_cex :
    ((200:ℚ) < -180 ∨ (180:ℚ) < 200) ∧
    update_technician_location sqDist 7 0 200 "assigned"
        (some (⟨1, 0, 0, 0, 0, "assigned", 0⟩ : Tracking ℚ))
      = ⟨some ⟨1, 0, 200, 0, 0, "en_route", 7⟩, "en_route", true⟩ ∧
    update_technician_location_geopy sqDist 7 0 200 "assigned"
        (some (⟨1, 0, 0, 0, 0, "assigned", 0⟩ : Tracking ℚ))
      = .ok ⟨some ⟨1, 0, 200, 0, 0, "en_route", 7⟩, "en_route", true⟩ := by
  have h2 : update_technician_location sqDist 7 0 200 "assigned"
      (some (⟨1, 0, 0, 0, 0, "assigned", 0⟩ : Tracking ℚ))
      = ⟨some ⟨1, 0, 200, 0, 0, "en_route", 7⟩, "en_route", true⟩ := by
    rw [update_technician_location_some]
    norm_num [sqDist]
    decide
  refine ⟨by norm_num, h2, ?_⟩
  unfold update_technician_location_geopy calculate_distance_geopy
  norm_num [geopy_latitude_ok, h2]

/-- C7 amended: the repository itself validates no coordinate, and no
InvalidCoordinate outcome exists.  A location report whose longitude is
outside [-180, 180], with both latitudes in range, is applied like any other
— the out-of-range longitude is stored and the endpoint reports success —
while a report whose latitude is outside [-90, 90] makes the external geopy
library raise ValueError (not InvalidCoordinate), aborting the endpoint
before the database commit, so the stored row keeps its previous contents and
no success response is produced. -/
theorem no_coordinate_validation (dist : ℚ → ℚ → ℚ → ℚ → ℚ)
    (now : ℤ) (lat lon : ℚ) (bs : String) (t : Tracking ℚ) :
    ((lon < -180 ∨ 180 < lon) → -90 ≤ lat → lat ≤ 90 →
      -90 ≤ t.customer_latitude → t.customer_latitude ≤ 90 →
      update_technician_location_geopy dist now lat lon bs (some t)
          = .ok (update_technician_location dist now lat lon bs (some t)) ∧
        ∃ t', (update_technician_location dist now lat lon bs (some t)).tracking
            = some t' ∧ t'.current_latitude = lat ∧ t'.current_longitude = lon ∧
          (update_technician_location dist now lat lon bs (some t)).success
            = true) ∧
    ((lat < -90 ∨ 90 < lat) →
      update_technician_location_geopy dist now lat lon bs (some t)
        = .error "ValueError") := by
  constructor
  · intro _hlon h1 h2 h3 h4
    have hok : (geopy_latitude_ok lat && geopy_latitude_ok t.customer_latitude)
        = true := by
      simp only [geopy_latitude_ok, Bool.and_eq_true, decide_eq_true_eq]
      exact ⟨⟨h1, h2⟩, h3, h4⟩
    constructor
    · unfold update_technician_location_geopy calculate_distance_geopy
      simp [hok]
    · unfold update_technician_location
      simp only
      split_ifs <;> exact ⟨_, rfl, rfl, rfl, rfl⟩
  · intro hbad
    have hko : geopy_latitude_ok lat = false := by
      have hnot : ¬(-90 ≤ lat ∧ lat ≤ 90) := by
        rintro ⟨hge, hle⟩
        rcases hbad with h | h <;> linarith
      simpa [geopy_latitude_ok] using hnot
    unfold update_technician_location_geopy calculate_distance_geopy
    simp [hko]

/-- Witness for C7 amended: a longitude-200 report (latitudes in range) is
applied with success, while a latitude-100 report fails with the propagated
ValueError and no committed state change. -/
theorem no_coordinate_validation_witness :
    (update_technician_location_geopy sqDist 7 0 200 "assigned"
        (some (⟨1, 0, 0, 0, 0, "assigned", 0⟩ : Tracking ℚ))
        = .ok (update_technician_location sqDist 7 0 200 "assigned"
            (some ⟨1, 0, 0, 0, 0, "assigned", 0⟩)) ∧
      ∃ t', (update_technician_location sqDist 7 0 200 "assigned"
          (some (⟨1, 0, 0, 0, 0, "assigned", 0⟩ : Tracking ℚ))).tracking
          = some t' ∧ t'.current_latitude = 0 ∧ t'.current_longitude = 200 ∧
        (update_technician_location sqDist 7 0 200 "assigned"
          (some (⟨1, 0, 0, 0, 0, "assigned", 0⟩ : Tracking ℚ))).success
          = true) ∧
    update_technician_location_geopy sqDist 7 100 0 "assigned"
        (some (⟨1, 0, 0, 0, 0, "assigned", 0⟩ : Tracking ℚ))
      = .error "ValueError" :=
  ⟨(no_coordinate_validation sqDist 7 0 200 "assigned"
      ⟨1, 0, 0, 0, 0, "assigned", 0⟩).1 (by norm_num) (by norm_num)
      (by norm_num) (by norm_num) (by norm_num),
   (no_coordinate_validation sqDist 7 100 0 "assigned"
      ⟨1, 0, 0, 0, 0, "assigned", 0⟩).2 (by norm_num)⟩

/-! ## Lemmas about the dispatcher selection loop -/

/-- Once a current best is held, the fold of `nearestStep` computes
`nearestGo`. -/
theorem foldl_nearestStep (f : Technician → ℚ) :
    ∀ (ts : List Technician) (b : Technician),
      List.foldl (nearestStep f) (some b, some (f b)) ts
        = (some (nearestGo f b ts), some (f (nearestGo f b ts))) := by
  intro ts
  induction ts with
  | nil => intro b; rfl
  | cons t ts ih =>
    intro b
    rw [List.foldl_cons]
    by_cases h : f t < f b
    · have hs : nearestStep f (some b, some (f b)) t = (some t, some (f t)) := by
        simp [nearestStep, h]
      rw [hs, ih t]
      simp only [nearestGo]
      rw [if_pos h]
    · have hs : nearestStep f (some b, some (f b)) t = (some b, some (f b)) := by
        simp [nearestStep, h]
      rw [hs, ih b]
      simp only [nearestGo]
      rw [if_neg h]

/-- The loop keeps the first minimum: strictly smaller candidates displace the
best, equal ones never do. -/
theorem nearestGo_isFirstMin (f : Technician → ℚ) :
    ∀ (ts : List Technician) (b : Technician),
      isFirstMin f (b :: ts) (nearestGo f b ts) := by
  intro ts
  induction ts with
  | nil =>
    intro b
    refine ⟨0, by simp, rfl, ?_, ?_⟩
    · intro j hj
      have hj0 : j = 0 := by simpa using hj
      subst hj0
      simp [nearestGo]
    · intro j hj hji
      omega
  | cons t ts ih =>
    intro b
    by_cases h : f t < f b
    · obtain ⟨i, hi, hget, hmin, hstrict⟩ := ih t
      have hr : nearestGo f b (t :: ts) = nearestGo f t ts := by
        simp only [nearestGo]
        rw [if_pos h]
      rw [hr]
      have hrt : f (nearestGo f t ts) ≤ f t := by
        simpa using hmin 0 (by simp)
      refine ⟨i + 1, by simpa using hi, by simpa using hget, ?_, ?_⟩
      · intro j hj
        cases j with
        | zero => exact le_of_lt (lt_of_le_of_lt hrt h)
        | succ k =>
          have hk : k < (t :: ts).length := by simpa using hj
          simpa using hmin k hk
      · intro j hj hji
        cases j with
        | zero => exact lt_of_le_of_lt hrt h
        | succ k =>
          have hk : k < (t :: ts).length := by simpa using hj
          have hki : k < i := by omega
          simpa using hstrict k hk hki
    · obtain ⟨i, hi, hget, hmin, hstrict⟩ := ih b
      have hr : nearestGo f b (t :: ts) = nearestGo f b ts := by
        simp only [nearestGo]
        rw [if_neg h]
      rw [hr]
      have hbt : f b ≤ f t := le_of_not_lt h
      have hrb : f (nearestGo f b ts) ≤ f b := by
        simpa using hmin 0 (by simp)
      cases i with
      | zero =>
        refine ⟨0, by simp, by simpa using hget, ?_, ?_⟩
        · intro j hj
          cases j with
          | zero => simpa using hmin 0 (by simp)
          | succ k =>
            cases k with
            | zero => exact le_trans hrb hbt
            | succ m =>
              have hm : m + 1 < (b :: ts).length := by
                simp at hj ⊢
                omega
              simpa using hmin (m + 1) hm
        · intro j hj hji
          omega
      | succ k =>
        have hk2 : k + 2 < (b :: t :: ts).length := by
          simp at hi ⊢
          omega
        refine ⟨k + 2, hk2, by simpa using hget, ?_, ?_⟩
        · intro j hj
          cases j with
          | zero => simpa using hmin 0 (by simp)
          | succ j1 =>
            cases j1 with
            | zero => exact le_trans hrb hbt
            | succ m =>
              have hm : m + 1 < (b :: ts).length := by
                simp at hj ⊢
                omega
              simpa using hmin (m + 1) hm
        · intro j hj hji
          have hb0 : f (nearestGo f b ts) < f b := by
            simpa using hstrict 0 (by simp) (by omega)
          cases j with
          | zero => simpa using hb0
          | succ j1 =>
            cases j1 with
            | zero => exact lt_of_lt_of_le hb0 hbt
            | succ m =>
              have hm : m + 1 < (b :: ts).length := by
                simp at hj ⊢
                omega
              have hmi : m + 1 < k + 1 := by omega
              simpa using hstrict (m + 1) hm hmi

/-- Characterization of the full selection loop: it returns `none` exactly on
the empty candidate list, and any returned technician is the first minimum of
the candidate list. -/
theorem nearestLoop_characterization (f : Technician → ℚ)
    (l : List Technician) :
    ((nearestLoop f l).1 = none ↔ l = []) ∧
    ∀ t, (nearestLoop f l).1 = some t → isFirstMin f l t := by
  cases l with
  | nil => simp [nearestLoop]
  | cons b ts =>
    have h1 : (nearestLoop f (b :: ts)).1 = some (nearestGo f b ts) := by
      unfold nearestLoop
      rw [List.foldl_cons]
      have hs : nearestStep f (none, none) b = (some b, some (f b)) := rfl
      rw [hs, foldl_nearestStep f ts b]
    constructor
    · rw [h1]
      simp
    · intro t ht
      rw [h1] at ht
      have := Option.some.inj ht
      subst this
      exact nearestGo_isFirstMin f ts b

/-! ## Claim theorems about the dispatcher -/

/-- C1 amended: `find_nearest_technician` filters the candidates to the
requested category with availability true and returns the first minimum of
the filtered list by distance — ties at the minimal distance are broken by
list position (the earliest-listed candidate wins), not by rating or worker
id; it returns `none` exactly when the filtered list is empty. -/
theorem find_nearest_is_first_minimum {α : Type} (dist : ℚ → ℚ → α → α → ℚ)
    (techs : List Technician) (service_category : String) (lat lon : α) :
    (find_nearest_technician dist techs service_category lat lon = none ↔
      techs.filter (fun u => u.service_category = service_category ∧ u.is_available)
        = []) ∧
    ∀ t, find_nearest_technician dist techs service_category lat lon = some t →
      isFirstMin (fun u => dist u.current_latitude u.current_longitude lat lon)
        (techs.filter
          (fun u => u.service_category = service_category ∧ u.is_available)) t := by
  have hunf : find_nearest_technician dist techs service_category lat lon
      = (nearestLoop (fun u => dist u.current_latitude u.current_longitude lat lon)
          (techs.filter
            (fun u => u.service_category = service_category ∧ u.is_available))).1 :=
    rfl
  rw [hunf]
  exact nearestLoop_characterization _ _

/-- Witness for C1 amended: on a two-candidate tie the returned technician is
the first minimum of the filtered list. -/
theorem find_nearest_is_first_minimum_witness :
    isFirstMin
      (fun u => sqDist u.current_latitude u.current_longitude 0 0)
      ([(⟨2, "plumbing", 1, 5, 5, true⟩ : Technician),
        ⟨1, "plumbing", 5, 5, 5, true⟩].filter
        (fun u => u.service_category = "plumbing" ∧ u.is_available))
      ⟨2, "plumbing", 1, 5, 5, true⟩ :=
  (find_nearest_is_first_minimum sqDist
    [⟨2, "plumbing", 1, 5, 5, true⟩, ⟨1, "plumbing", 5, 5, 5, true⟩]
    "plumbing" 0 0).2 ⟨2, "plumbing", 1, 5, 5, true⟩
    (by norm_num [find_nearest_technician, nearestLoop, nearestStep, sqDist,
          List.filter])

/-- C1 counterexample: two available same-category technicians stand at the
same point (5, 5), hence at equal distance from the requester at (0, 0).  The
claim demands the higher-rating worker — and among equal ratings the lower id
— which here is the second candidate (id 1, rating 5); the code returns the
first-listed candidate (id 2, rating 1), because the strict `<` comparison
never displaces the current best on a tie. -/
theorem rating_tie_break_cex :
    find_nearest_technician sqDist
        [⟨2, "plumbing", 1, 5, 5, true⟩, ⟨1, "plumbing", 5, 5, 5, true⟩]
        "plumbing" (0:ℚ) (0:ℚ)
      = some ⟨2, "plumbing", 1, 5, 5, true⟩ ∧
    (1:ℚ) < 5 ∧ (1:ℕ) < 2 := by
  refine ⟨?_, by norm_num, by norm_num⟩
  norm_num [find_nearest_technician, nearestLoop, nearestStep, sqDist,
    List.filter]

/-- C2 counterexample: a successful dispatch leaves the selected worker still
available — the availability flag is never written — so an identical second
dispatch selects the same worker again, violating the at-most-one-active-
assignment invariant the claim asserts. -/
theorem availability_not_claimed_cex :
    (create_booking sqDistOpt [⟨7, "plumbing", 5, 1, 1, true⟩] "plumbing"
        (some 0) (some 0)).technician = some ⟨7, "plumbing", 5, 1, 1, true⟩ ∧
    (create_booking sqDistOpt [⟨7, "plumbing", 5, 1, 1, true⟩] "plumbing"
        (some 0) (some 0)).technicians = [⟨7, "plumbing", 5, 1, 1, true⟩] ∧
    (⟨7, "plumbing", 5, 1, 1, true⟩ : Technician).is_available = true ∧
    (create_booking sqDistOpt
        (create_booking sqDistOpt [⟨7, "plumbing", 5, 1, 1, true⟩] "plumbing"
          (some 0) (some 0)).technicians
        "plumbing" (some 0) (some 0)).technician
      = some ⟨7, "plumbing", 5, 1, 1, true⟩ :=
  ⟨rfl, rfl, rfl, rfl⟩

/-- C2 amended: a dispatch never modifies any worker record — in particular no
availability flag is flipped, on success or on failure — so nothing in the
code prevents the same worker from being selected by consecutive
dispatches. -/
theorem dispatch_preserves_availability
    (dist : ℚ → ℚ → Option ℚ → Option ℚ → ℚ) (techs : List Technician)
    (service_category : String) (latitude longitude : Option ℚ) :
    (create_booking dist techs service_category latitude longitude).technicians
      = techs := by
  cases h : find_nearest_technician dist techs service_category latitude longitude <;>
    simp [create_booking, h]

/-- C9: with the requester position absent, the default Delhi coordinates are
substituted only into the stored booking row; the dispatch call and the
created tracking row receive the raw absent value (`None`), not the
default. -/
theorem default_location_not_propagated :
    (create_booking sqDistOpt [⟨1, "plumbing", 5, 5, 5, true⟩] "plumbing"
        none none).booking_latitude = 286139/10000 ∧
    (create_booking sqDistOpt [⟨1, "plumbing", 5, 5, 5, true⟩] "plumbing"
        none none).booking_longitude = 772090/10000 ∧
    (create_booking sqDistOpt [⟨1, "plumbing", 5, 5, 5, true⟩] "plumbing"
        none none).dispatch_lat_arg = none ∧
    (create_booking sqDistOpt [⟨1, "plumbing", 5, 5, 5, true⟩] "plumbing"
        none none).dispatch_lon_arg = none ∧
    (create_booking sqDistOpt [⟨1, "plumbing", 5, 5, 5, true⟩] "plumbing"
        none none).technician = some ⟨1, "plumbing", 5, 5, 5, true⟩ ∧
    (create_booking sqDistOpt [⟨1, "plumbing", 5, 5, 5, true⟩] "plumbing"
        none none).tracking = some ⟨1, 5, 5, none, none, "assigned", 0⟩ :=
  ⟨rfl, rfl, rfl, rfl, rfl, rfl⟩

/-! ## Claim theorems about the push channel -/

/-- C8 counterexample: the tracking WebSocket loop keeps emitting snapshots of
a `completed` session — the emissions at tick 1 and at tick 1000 are both
present and identical, so the stream does not end after one final snapshot;
the `while True` loop never inspects the status. -/
theorem terminal_stream_cex :
    websocket_emission sqDist
        (some (⟨1, 0, 0, 0, 0, "completed", 42⟩ : Tracking ℚ)) 1
      = some (make_snapshot sqDist ⟨1, 0, 0, 0, 0, "completed", 42⟩) ∧
    websocket_emission sqDist
        (some (⟨1, 0, 0, 0, 0, "completed", 42⟩ : Tracking ℚ)) 1000
      = some (make_snapshot sqDist ⟨1, 0, 0, 0, 0, "completed", 42⟩) :=
  ⟨rfl, rfl⟩

/-- C8 amended: an observer of a session with terminal status receives a
snapshot of the terminal state on every five-second tick, indefinitely — the
loop neither checks for terminal status nor ends the stream on its own; only
a client disconnect stops it. -/
theorem terminal_stream_never_ends {α : Type} (dist : ℚ → ℚ → α → α → ℚ)
    (t : Tracking α) (n : ℕ)
    (_hterm : t.status = "completed" ∨ t.status = "cancelled") :
    websocket_emission dist (some t) n = some (make_snapshot dist t) := rfl

/-- Witness for C8 amended at tick 3 of a completed session. -/
theorem terminal_stream_never_ends_witness :
    (("completed" : String) = "completed" ∨
      ("completed" : String) = "cancelled") ∧
    websocket_emission sqDist
        (some (⟨1, 0, 0, 0, 0, "completed", 42⟩ : Tracking ℚ)) 3
      = some (make_snapshot sqDist ⟨1, 0, 0, 0, 0, "completed", 42⟩) :=
  ⟨Or.inl rfl,
   terminal_stream_never_ends sqDist ⟨1, 0, 0, 0, 0, "completed", 42⟩ 3
     (Or.inl rfl)⟩

/-! ## Lemmas about the connection manager -/

/-- Replacing the binding of key `k` does not change the list of keys. -/
theorem connect_map_fst (l : List (String × ℕ)) (k : String) (v : ℕ) :
    (l.map (fun p => if p.1 = k then (k, v) else p)).map Prod.fst
      = l.map Prod.fst := by
  induction l with
  | nil => rfl
  | cons p l ih =>
    simp only [List.map_cons, ih]
    congr 1
    split_ifs with h
    · exact h.symm
    · rfl

/-- A `connect` preserves distinctness of the stored keys. -/
theorem manager_connect_nodup (l : List (String × ℕ)) (k : String) (v : ℕ)
    (h : (l.map Prod.fst).Nodup) :
    ((manager_connect l k v).map Prod.fst).Nodup := by
  unfold manager_connect
  split_ifs with hp
  · rw [connect_map_fst]
    exact h
  · rw [List.map_append]
    simp only [List.map_cons, List.map_nil]
    rw [List.nodup_append]
    refine ⟨h, List.nodup_singleton k, ?_⟩
    intro a ha hb
    have hak : a = k := by simpa using hb
    subst hak
    simp only [List.mem_map] at ha
    obtain ⟨p, hp1, hp2⟩ := ha
    apply hp
    simp only [List.any_eq_true]
    exact ⟨p, hp1, by simp [hp2]⟩

/-- A `disconnect` preserves distinctness of the stored keys. -/
theorem manager_disconnect_nodup (l : List (String × ℕ)) (k : String)
    (h : (l.map Prod.fst).Nodup) :
    ((manager_disconnect l k).map Prod.fst).Nodup := by
  have hsub : List.Sublist ((manager_disconnect l k).map Prod.fst)
      (l.map Prod.fst) :=
    (List.filter_sublist l).map Prod.fst
  exact h.sublist hsub

/-- Every reachable registry state has pairwise distinct keys. -/
theorem run_manager_nodup (ops : List ManagerOp) :
    ((run_manager ops).map Prod.fst).Nodup := by
  have haux : ∀ (ops : List ManagerOp) (s : List (String × ℕ)),
      (s.map Prod.fst).Nodup →
      ((ops.foldl manager_apply s).map Prod.fst).Nodup := by
    intro ops
    induction ops with
    | nil => intro s h; exact h
    | cons op ops ih =>
      intro s h
      rw [List.foldl_cons]
      apply ih
      cases op with
      | connect booking_id websocket =>
        exact manager_connect_nodup s booking_id websocket h
      | disconnect booking_id =>
        exact manager_disconnect_nodup s booking_id h
  exact haux ops [] (by simp)

/-- In a registry with distinct keys, at most one entry carries a given
key. -/
theorem nodup_filter_key_le_one (l : List (String × ℕ)) (k : String)
    (h : (l.map Prod.fst).Nodup) :
    (l.filter (fun p => p.1 = k)).length ≤ 1 := by
  induction l with
  | nil => simp
  | cons p l ih =>
    rw [List.map_cons, List.nodup_cons] at h
    obtain ⟨hp, hl⟩ := h
    by_cases hk : p.1 = k
    · have hfil : l.filter (fun p => p.1 = k) = [] := by
        rw [List.filter_eq_nil_iff]
        intro a ha
        simp only [decide_eq_true_eq]
        intro hak
        exact hp (by rw [hk, ← hak]; exact List.mem_map_of_mem Prod.fst ha)
      simp [List.filter_cons, hk, hfil]
    · simp only [List.filter_cons, hk]
      simpa using ih hl

/-- In the replace branch of `connect`, the only binding left for key `k` is
the fresh one. -/
theorem connect_replace_filter (k : String) (v : ℕ) :
    ∀ l : List (String × ℕ), (l.map Prod.fst).Nodup →
      l.any (fun p => p.1 = k) = true →
      (l.map (fun p => if p.1 = k then (k, v) else p)).filter
          (fun p => p.1 = k)
        = [(k, v)] := by
  intro l
  induction l with
  | nil => intro _ hany; simp at hany
  | cons p l ih =>
    intro hnod hany
    rw [List.map_cons, List.nodup_cons] at hnod
    obtain ⟨hp, hl⟩ := hnod
    by_cases hk : p.1 = k
    · have hrest : (l.map (fun p => if p.1 = k then (k, v) else p)).filter
          (fun p => p.1 = k) = [] := by
        rw [List.filter_eq_nil_iff]
        intro b hb
        simp only [List.mem_map] at hb
        obtain ⟨q, hq1, hq2⟩ := hb
        have hqk : q.1 ≠ k := by
          intro hqk
          exact hp (by rw [hk, ← hqk]; exact List.mem_map_of_mem Prod.fst hq1)
        rw [if_neg hqk] at hq2
        subst hq2
        simp [hqk]
      simp [List.map_cons, List.filter_cons, hk, hrest]
    · have hany2 : l.any (fun p => p.1 = k) = true := by
        simp only [List.any_cons, Bool.or_eq_true] at hany
        rcases hany with h1 | h1
        · exact absurd (by simpa using h1) hk
        · exact h1
      simp only [List.map_cons, List.filter_cons]
      simp [hk]
      exact ih hl hany2

/-- After a `connect` on a registry with distinct keys, the bindings for that
key are exactly the fresh one. -/
theorem manager_connect_filter (l : List (String × ℕ)) (k : String) (v : ℕ)
    (h : (l.map Prod.fst).Nodup) :
    (manager_connect l k v).filter (fun p => p.1 = k) = [(k, v)] := by
  unfold manager_connect
  split_ifs with hp
  · exact connect_replace_filter k v l h hp
  · rw [List.filter_append]
    have h1 : l.filter (fun p => p.1 = k) = [] := by
      rw [List.filter_eq_nil_iff]
      intro a ha
      simp only [decide_eq_true_eq]
      intro hak
      apply hp
      simp only [List.any_eq_true]
      exact ⟨a, ha, by simp [hak]⟩
    rw [h1]
    simp

/-- `find?` returns the head of the filtered list. -/
theorem find?_eq_head?_filter {α : Type} (p : α → Bool) (l : List α) :
    l.find? p = (l.filter p).head? := by
  induction l with
  | nil => rfl
  | cons a l ih =>
    by_cases h : p a
    · rw [List.find?_cons_of_pos _ h, List.filter_cons_of_pos h, List.head?_cons]
    · rw [List.find?_cons_of_neg _ h, List.filter_cons_of_neg h]
      exact ih

/-- After a `connect`, `send_update` delivers to the fresh websocket. -/
theorem send_update_target_connect (l : List (String × ℕ)) (k : String)
    (v : ℕ) (h : (l.map Prod.fst).Nodup) :
    send_update_target (manager_connect l k v) k = some v := by
  unfold send_update_target
  rw [find?_eq_head?_filter, manager_connect_filter l k v h]
  rfl

/-- C10: in every reachable registry state the manager holds at most one
observer per session id; a `connect` with an already-subscribed id replaces
the previous binding — afterwards the only binding for that id is the new
one — and `send_update` delivers precisely to that most recent websocket. -/
theorem manager_single_observer (ops : List ManagerOp) (booking_id : String)
    (websocket : ℕ) :
    ((run_manager ops).filter (fun p => p.1 = booking_id)).length ≤ 1 ∧
    (manager_connect (run_manager ops) booking_id websocket).filter
        (fun p => p.1 = booking_id) = [(booking_id, websocket)] ∧
    send_update_target
        (manager_connect (run_manager ops) booking_id websocket) booking_id
      = some websocket :=
  ⟨nodup_filter_key_le_one _ _ (run_manager_nodup ops),
   manager_connect_filter _ _ _ (run_manager_nodup ops),
   send_update_target_connect _ _ _ (run_manager_nodup ops)⟩
